import Mathlib

/-!
Verification of the `BankAccount` program (src/main.cpp).

Shallow embedding conventions:
* The C++ `double` amounts are modelled as exact rationals `ℚ`; the program
  only compares and copies amounts, never performs arithmetic on them.
* The throwing method `setAccount` is modelled as a function returning the
  post-state of the object together with `Option BankAccountException`:
  in the C++ body every `throw` happens before any field mutation, so on a
  throw the post-state is the unchanged receiver.
* The static member `s_count` is modelled as an explicit `ℤ` argument that is
  threaded through constructor and destructor models.
-/

namespace Bank

/-- The `AccountError` enum of src/main.cpp. -/
inductive AccountError where
  | InvalidAvailableBelowMin
  | InvalidPresentBelowMin
  | AvailableExceedsPresent
  | Unknown
  deriving DecidableEq, Repr

/-- The `BankAccountException` class: a message plus an `AccountError` kind
(field `type_` in the C++ source). -/
structure BankAccountException where
  msg : String
  type_ : AccountError
  deriving DecidableEq, Repr

/-- `BankAccount::MIN_DEFAULT_AVAILABLE_BALANCE = 5.00`. -/
def MIN_DEFAULT_AVAILABLE_BALANCE : ℚ := 5

/-- `BankAccount::MIN_DEFAULT_PRESENT_BALANCE = 5.00`. -/
def MIN_DEFAULT_PRESENT_BALANCE : ℚ := 5

/-- The two data members of `BankAccount`. -/
structure BankAccount where
  available_ : ℚ
  present_ : ℚ
  deriving DecidableEq, Repr

/-- Accessor `BankAccount::available()`. -/
def BankAccount.available (self : BankAccount) : ℚ := self.available_

/-- Accessor `BankAccount::present()`. -/
def BankAccount.present (self : BankAccount) : ℚ := self.present_

/-- `BankAccount::setAccount(double, double)`: validate, then either throw
(post-state unchanged, exception returned) or assign both fields. -/
def BankAccount.setAccount (self : BankAccount) (available present : ℚ) :
    BankAccount × Option BankAccountException :=
  if available < MIN_DEFAULT_AVAILABLE_BALANCE then
    (self, some ⟨"Available balance below minimum $5.00",
                 AccountError.InvalidAvailableBelowMin⟩)
  else if present < MIN_DEFAULT_PRESENT_BALANCE then
    (self, some ⟨"Present balance below minimum $5.00",
                 AccountError.InvalidPresentBelowMin⟩)
  else if available > present then
    (self, some ⟨"Available balance cannot exceed present balance",
                 AccountError.AvailableExceedsPresent⟩)
  else
    (⟨available, present⟩, none)

/-- Default constructor `BankAccount()`: both fields set to the minimums,
`++s_count`. -/
def mkDefault (count : ℤ) : BankAccount × ℤ :=
  (⟨MIN_DEFAULT_AVAILABLE_BALANCE, MIN_DEFAULT_PRESENT_BALANCE⟩, count + 1)

/-- Value constructor `BankAccount(double, double)`: the fields start at their
in-class initializers (the minimums), `setAccount` is attempted, a thrown
`BankAccountException` is caught, the fields are reset to the minimums and a
notice is printed (modelled as the returned `Option String`); `++s_count`
runs on both paths. -/
def mkWithValues (a p : ℚ) (count : ℤ) :
    (BankAccount × Option String) × ℤ :=
  let fieldInit : BankAccount :=
    ⟨MIN_DEFAULT_AVAILABLE_BALANCE, MIN_DEFAULT_PRESENT_BALANCE⟩
  match fieldInit.setAccount a p with
  | (acct, none) => ((acct, none), count + 1)
  | (_, some ex) =>
      ((⟨MIN_DEFAULT_AVAILABLE_BALANCE, MIN_DEFAULT_PRESENT_BALANCE⟩,
        some ("[Create] " ++ ex.msg
              ++ " -> account set to defaults ($5.00, $5.00)")),
       count + 1)

/-- Copy constructor `BankAccount(const BankAccount&)`: copy both fields,
`++s_count`. -/
def mkCopy (other : BankAccount) (count : ℤ) : BankAccount × ℤ :=
  (⟨other.available_, other.present_⟩, count + 1)

/-- Move constructor `BankAccount(BankAccount&&)`: copy both fields, leave
the origin untouched, `++s_count`. Returns (new object, origin after the
call, counter). -/
def mkMove (other : BankAccount) (count : ℤ) :
    (BankAccount × BankAccount) × ℤ :=
  ((⟨other.available_, other.present_⟩, other), count + 1)

/-- Destructor `~BankAccount()`: `--s_count`. -/
def destructor (count : ℤ) : ℤ := count - 1

/-- `BankAccount::getObjectCount()`: returns `s_count`. -/
def getObjectCount (count : ℤ) : ℤ := count

/-- The three data-model invariants of a valid account. -/
def valid (b : BankAccount) : Prop :=
  MIN_DEFAULT_AVAILABLE_BALANCE ≤ b.available_ ∧
  MIN_DEFAULT_PRESENT_BALANCE ≤ b.present_ ∧
  b.available_ ≤ b.present_

instance (b : BankAccount) : Decidable (valid b) := by
  unfold valid; infer_instance

/-- Helper: whenever one of the three validation rules fails, `setAccount`
throws: it returns the unchanged receiver together with some exception. -/
lemma setAccount_rejects (self : BankAccount) (a p : ℚ)
    (h : a < 5 ∨ p < 5 ∨ p < a) :
    ∃ ex, self.setAccount a p = (self, some ex) := by
  unfold BankAccount.setAccount
  unfold MIN_DEFAULT_AVAILABLE_BALANCE MIN_DEFAULT_PRESENT_BALANCE
  by_cases h1 : a < 5
  · rw [if_pos h1]; exact ⟨_, rfl⟩
  · rw [if_neg h1]
    by_cases h2 : p < 5
    · rw [if_pos h2]; exact ⟨_, rfl⟩
    · rw [if_neg h2]
      by_cases h3 : p < a
      · rw [if_pos h3]; exact ⟨_, rfl⟩
      · rcases h with h | h | h <;> exact absurd h (by assumption)

/-- Helper: when all three validation rules pass, `setAccount` assigns both
fields and throws nothing. -/
lemma setAccount_accepts (self : BankAccount) (a p : ℚ)
    (h1 : ¬ a < 5) (h2 : ¬ p < 5) (h3 : ¬ p < a) :
    self.setAccount a p = (⟨a, p⟩, none) := by
  unfold BankAccount.setAccount
  unfold MIN_DEFAULT_AVAILABLE_BALANCE MIN_DEFAULT_PRESENT_BALANCE
  rw [if_neg h1, if_neg h2, if_neg h3]

/-- Claim C1: for all `a ≥ 5`, `p ≥ 5`, `a ≤ p`, `setAccount a p` on any
account signals no failure, and afterwards `available()` returns `a` and
`present()` returns `p`. -/
theorem setAccount_success (self : BankAccount) (a p : ℚ)
    (ha : 5 ≤ a) (hp : 5 ≤ p) (hap : a ≤ p) :
    (self.setAccount a p).2 = none ∧
    (self.setAccount a p).1.available = a ∧
    (self.setAccount a p).1.present = p := by
  unfold BankAccount.setAccount
  rw [if_neg (by rw [not_lt]; exact_mod_cast ha),
      if_neg (by rw [not_lt]; exact_mod_cast hp),
      if_neg (by rw [not_lt]; exact hap)]
  exact ⟨rfl, rfl, rfl⟩

/-- Witness for C1 at the concrete call `setAccount(10, 20)` on the account
`(7, 8)`. -/
theorem setAccount_success_witness :
    ((⟨7, 8⟩ : BankAccount).setAccount 10 20).2 = none ∧
    ((⟨7, 8⟩ : BankAccount).setAccount 10 20).1.available = 10 ∧
    ((⟨7, 8⟩ : BankAccount).setAccount 10 20).1.present = 20 :=
  setAccount_success ⟨7, 8⟩ 10 20 (by norm_num) (by norm_num) (by norm_num)

/-- Claim C2: the three validation rules are checked in a fixed order and the
first failing rule determines the rejection kind: `a < 5` rejects with
`InvalidAvailableBelowMin` for any `p`; otherwise `p < 5` rejects with
`InvalidPresentBelowMin`; otherwise `a > p` rejects with
`AvailableExceedsPresent`; otherwise the call accepts. -/
theorem setAccount_validation_order (self : BankAccount) (a p : ℚ) :
    (a < 5 →
      (self.setAccount a p).2 =
        some ⟨"Available balance below minimum $5.00",
              AccountError.InvalidAvailableBelowMin⟩) ∧
    (5 ≤ a → p < 5 →
      (self.setAccount a p).2 =
        some ⟨"Present balance below minimum $5.00",
              AccountError.InvalidPresentBelowMin⟩) ∧
    (5 ≤ a → 5 ≤ p → p < a →
      (self.setAccount a p).2 =
        some ⟨"Available balance cannot exceed present balance",
              AccountError.AvailableExceedsPresent⟩) ∧
    (5 ≤ a → 5 ≤ p → a ≤ p → (self.setAccount a p).2 = none) := by
  unfold BankAccount.setAccount
  unfold MIN_DEFAULT_AVAILABLE_BALANCE MIN_DEFAULT_PRESENT_BALANCE
  refine ⟨fun h1 => ?_, fun h1 h2 => ?_, fun h1 h2 h3 => ?_, fun h1 h2 h3 => ?_⟩
  · rw [if_pos h1]
  · rw [if_neg (not_lt.mpr h1), if_pos h2]
  · rw [if_neg (not_lt.mpr h1), if_neg (not_lt.mpr h2), if_pos h3]
  · rw [if_neg (not_lt.mpr h1), if_neg (not_lt.mpr h2), if_neg (not_lt.mpr h3)]

/-- Witness for C2 at the concrete call `setAccount(3, 10)` on `(7, 8)`:
the first rule fails, so the kind is `InvalidAvailableBelowMin`. -/
theorem setAccount_validation_order_witness :
    ((⟨7, 8⟩ : BankAccount).setAccount 3 10).2 =
      some ⟨"Available balance below minimum $5.00",
            AccountError.InvalidAvailableBelowMin⟩ :=
  (setAccount_validation_order ⟨7, 8⟩ 3 10).1 (by norm_num)

/-- Claim C3: `setAccount` is atomic: on any rejection the account is left
exactly as it was, and the rejection carries a nonempty human-readable
message together with one of the three categorized error kinds. -/
theorem setAccount_atomic (self : BankAccount) (a p : ℚ)
    (ex : BankAccountException)
    (h : (self.setAccount a p).2 = some ex) :
    (self.setAccount a p).1 = self ∧ ex.msg ≠ "" ∧
    (ex.type_ = AccountError.InvalidAvailableBelowMin ∨
     ex.type_ = AccountError.InvalidPresentBelowMin ∨
     ex.type_ = AccountError.AvailableExceedsPresent) := by
  unfold BankAccount.setAccount at h ⊢
  split at h
  · exact ⟨by rw [if_pos (by assumption)],
           by cases (Option.some_inj.mp h); simp⟩
  · split at h
    · exact ⟨by rw [if_neg (by assumption), if_pos (by assumption)],
             by cases (Option.some_inj.mp h); simp⟩
    · split at h
      · exact ⟨by rw [if_neg (by assumption), if_neg (by assumption),
                      if_pos (by assumption)],
               by cases (Option.some_inj.mp h); simp⟩
      · exact absurd h (by simp)

/-- Witness for C3 at the concrete rejected call `setAccount(3, 10)` on the
account `(7, 8)`. -/
theorem setAccount_atomic_witness :
    ((⟨7, 8⟩ : BankAccount).setAccount 3 10).1 = (⟨7, 8⟩ : BankAccount) ∧
    ("Available balance below minimum $5.00" : String) ≠ "" ∧
    (AccountError.InvalidAvailableBelowMin =
       AccountError.InvalidAvailableBelowMin ∨
     AccountError.InvalidAvailableBelowMin =
       AccountError.InvalidPresentBelowMin ∨
     AccountError.InvalidAvailableBelowMin =
       AccountError.AvailableExceedsPresent) :=
  setAccount_atomic ⟨7, 8⟩ 3 10
    ⟨"Available balance below minimum $5.00",
     AccountError.InvalidAvailableBelowMin⟩ rfl

/-- Claim C9: `setAccount` never signals a failure of kind `Unknown`: every
rejection carries one of the three categorized kinds. -/
theorem setAccount_no_unknown (self : BankAccount) (a p : ℚ)
    (ex : BankAccountException)
    (h : (self.setAccount a p).2 = some ex) :
    ex.type_ ≠ AccountError.Unknown ∧
    (ex.type_ = AccountError.InvalidAvailableBelowMin ∨
     ex.type_ = AccountError.InvalidPresentBelowMin ∨
     ex.type_ = AccountError.AvailableExceedsPresent) := by
  unfold BankAccount.setAccount at h
  split at h
  · cases (Option.some_inj.mp h); simp
  · split at h
    · cases (Option.some_inj.mp h); simp
    · split at h
      · cases (Option.some_inj.mp h); simp
      · exact absurd h (by simp)

/-- Witness for C9 at the concrete rejected call `setAccount(20, 10)` on
`(7, 8)`: the kind is `AvailableExceedsPresent`, not `Unknown`. -/
theorem setAccount_no_unknown_witness :
    (AccountError.AvailableExceedsPresent ≠ AccountError.Unknown) ∧
    (AccountError.AvailableExceedsPresent =
       AccountError.InvalidAvailableBelowMin ∨
     AccountError.AvailableExceedsPresent =
       AccountError.InvalidPresentBelowMin ∨
     AccountError.AvailableExceedsPresent =
       AccountError.AvailableExceedsPresent) :=
  setAccount_no_unknown ⟨7, 8⟩ 20 10
    ⟨"Available balance cannot exceed present balance",
     AccountError.AvailableExceedsPresent⟩ rfl

/-- Claim C10: the outcome of `setAccount` depends only on the two arguments,
not on the receiver's current fields: two accounts in arbitrary states get
the same accept/reject decision and exception, and on acceptance the same
resulting fields. -/
theorem setAccount_state_independent (s1 s2 : BankAccount) (a p : ℚ) :
    (s1.setAccount a p).2 = (s2.setAccount a p).2 ∧
    ((s1.setAccount a p).2 = none →
      (s1.setAccount a p).1 = (s2.setAccount a p).1) := by
  unfold BankAccount.setAccount
  split
  · simp
  · split
    · simp
    · split
      · simp
      · simp

/-- Witness for C10 with the two distinct states `(7, 8)` and `(100, 200)`
and the accepted call `setAccount(10, 20)`. -/
theorem setAccount_state_independent_witness :
    ((⟨7, 8⟩ : BankAccount).setAccount 10 20).1 =
      ((⟨100, 200⟩ : BankAccount).setAccount 10 20).1 :=
  (setAccount_state_independent ⟨7, 8⟩ ⟨100, 200⟩ 10 20).2 rfl

/-- Claim C4: for every input pair that fails validation, the value
constructor signals no failure to the caller: it catches the exception
internally, produces a printed notice, sets the instance to `(5, 5)`, and
still increments the live counter. -/
theorem mkWithValues_invalid (a p : ℚ) (count : ℤ)
    (h : a < 5 ∨ p < 5 ∨ p < a) :
    (mkWithValues a p count).1.1 = (⟨5, 5⟩ : BankAccount) ∧
    (∃ notice, (mkWithValues a p count).1.2 = some notice) ∧
    (mkWithValues a p count).2 = count + 1 := by
  obtain ⟨ex, hex⟩ := setAccount_rejects
    ⟨MIN_DEFAULT_AVAILABLE_BALANCE, MIN_DEFAULT_PRESENT_BALANCE⟩ a p h
  simp only [mkWithValues]
  rw [hex]
  refine ⟨?_, ⟨_, rfl⟩, rfl⟩
  unfold MIN_DEFAULT_AVAILABLE_BALANCE MIN_DEFAULT_PRESENT_BALANCE
  rfl

/-- Witness for C4 at the concrete construction `BankAccount(20, 10)` with
counter `3`: it yields the default `(5, 5)` account, a notice, and
counter `4`. -/
theorem mkWithValues_invalid_witness :
    (mkWithValues 20 10 3).1.1 = (⟨5, 5⟩ : BankAccount) ∧
    (∃ notice, (mkWithValues 20 10 3).1.2 = some notice) ∧
    (mkWithValues 20 10 3).2 = 3 + 1 :=
  mkWithValues_invalid 20 10 3 (Or.inr (Or.inr (by norm_num)))

/-- Claim C5: every construction path (default, by-value including its
fallback, copy, move) and every accepted `setAccount` yields an account
satisfying the three invariants `available ≥ 5`, `present ≥ 5`,
`available ≤ present`. -/
theorem operations_preserve_valid (a p : ℚ) (src : BankAccount) (count : ℤ) :
    valid (mkDefault count).1 ∧
    valid (mkWithValues a p count).1.1 ∧
    (valid src → valid (mkCopy src count).1) ∧
    (valid src → valid (mkMove src count).1.1) ∧
    (∀ self : BankAccount, (self.setAccount a p).2 = none →
      valid (self.setAccount a p).1) := by
  have hset : ∀ self : BankAccount, (self.setAccount a p).2 = none →
      valid (self.setAccount a p).1 := by
    intro self hnone
    by_cases h1 : a < 5
    · obtain ⟨ex, hex⟩ := setAccount_rejects self a p (Or.inl h1)
      rw [hex] at hnone; exact absurd hnone (by simp)
    · by_cases h2 : p < 5
      · obtain ⟨ex, hex⟩ := setAccount_rejects self a p (Or.inr (Or.inl h2))
        rw [hex] at hnone; exact absurd hnone (by simp)
      · by_cases h3 : p < a
        · obtain ⟨ex, hex⟩ := setAccount_rejects self a p
            (Or.inr (Or.inr h3))
          rw [hex] at hnone; exact absurd hnone (by simp)
        · rw [setAccount_accepts self a p h1 h2 h3]
          exact ⟨le_of_not_lt h1, le_of_not_lt h2, le_of_not_lt h3⟩
  refine ⟨⟨le_refl _, le_refl _, le_refl _⟩, ?_, ?_, ?_, hset⟩
  · simp only [mkWithValues]
    rcases hcase : (BankAccount.mk MIN_DEFAULT_AVAILABLE_BALANCE
        MIN_DEFAULT_PRESENT_BALANCE).setAccount a p with ⟨acct, exOpt⟩
    cases exOpt with
    | none =>
        have := hset ⟨MIN_DEFAULT_AVAILABLE_BALANCE,
          MIN_DEFAULT_PRESENT_BALANCE⟩ (by rw [hcase])
        rw [hcase] at this
        exact this
    | some ex =>
        exact ⟨le_refl _, le_refl _, le_refl _⟩
  · exact fun hs => ⟨hs.1, hs.2.1, hs.2.2⟩
  · exact fun hs => ⟨hs.1, hs.2.1, hs.2.2⟩

/-- Witness for C5 at `a = 10`, `p = 20`, source account `(6, 7)`,
counter `0`: the copy of the valid source is valid. -/
theorem operations_preserve_valid_witness :
    valid (mkCopy ⟨6, 7⟩ 0).1 :=
  (operations_preserve_valid 10 20 ⟨6, 7⟩ 0).2.2.1 (by norm_num [valid,
    MIN_DEFAULT_AVAILABLE_BALANCE, MIN_DEFAULT_PRESENT_BALANCE])

/-- Claim C7: copy and move construction each reproduce the source's
`available`/`present` exactly, increment the live counter by one, run no
validation (the source here is arbitrary, not assumed valid), and the move
leaves the origin's fields unchanged. -/
theorem copy_move_semantics (other : BankAccount) (count : ℤ) :
    (mkCopy other count).1.available = other.available ∧
    (mkCopy other count).1.present = other.present ∧
    (mkCopy other count).2 = count + 1 ∧
    (mkMove other count).1.1.available = other.available ∧
    (mkMove other count).1.1.present = other.present ∧
    (mkMove other count).1.2 = other ∧
    (mkMove other count).2 = count + 1 :=
  ⟨rfl, rfl, rfl, rfl, rfl, rfl, rfl⟩

/-- The driver's update path (menu option 3): `setAccount` invoked on the
account at `idx` inside the accounts list, with the static counter threaded
through; out-of-range indices are rejected by the driver before the call. -/
def setAccountAt (accounts : List BankAccount) (idx : ℕ) (a p : ℚ)
    (count : ℤ) : (List BankAccount × Option BankAccountException) × ℤ :=
  match accounts[idx]? with
  | none => ((accounts, none), count)
  | some acct =>
      ((accounts.set idx (acct.setAccount a p).1, (acct.setAccount a p).2),
       count)

/-- Claim C8: a `setAccount` call, accepting or rejecting, leaves the
process-wide live-instance counter unchanged and mutates nothing but the
target account: every other list entry is untouched. -/
theorem setAccountAt_frame (accounts : List BankAccount) (idx : ℕ)
    (a p : ℚ) (count : ℤ) :
    (setAccountAt accounts idx a p count).2 = count ∧
    (setAccountAt accounts idx a p count).1.1.length = accounts.length ∧
    (∀ j, j ≠ idx →
      ((setAccountAt accounts idx a p count).1.1)[j]? = accounts[j]?) := by
  unfold setAccountAt
  cases hidx : accounts[idx]? with
  | none => exact ⟨rfl, rfl, fun j _ => rfl⟩
  | some acct =>
      refine ⟨rfl, by simp, fun j hj => ?_⟩
      simp only
      rw [List.getElem?_set_ne (fun hh => hj hh.symm)]

/-- Witness for C8: updating index `0` of a two-account list with
`setAccount(10, 20)` and counter `3` keeps the counter at `3` and leaves
index `1` untouched. -/
theorem setAccountAt_frame_witness :
    (setAccountAt [(⟨7, 8⟩ : BankAccount), ⟨9, 10⟩] 0 10 20 3).2 = 3 ∧
    ((setAccountAt [(⟨7, 8⟩ : BankAccount), ⟨9, 10⟩] 0 10 20 3).1.1)[1]? =
      some (⟨9, 10⟩ : BankAccount) :=
  ⟨(setAccountAt_frame [⟨7, 8⟩, ⟨9, 10⟩] 0 10 20 3).1,
   (setAccountAt_frame [⟨7, 8⟩, ⟨9, 10⟩] 0 10 20 3).2.2 1 (by norm_num)⟩

/-- A lifecycle event: one of the four constructor paths of `BankAccount`
(each runs `++s_count`) or a destructor run (`--s_count`). -/
inductive Event where
  | ctorDefault
  | ctorValues (a p : ℚ)
  | ctorCopy (src : BankAccount)
  | ctorMove (src : BankAccount)
  | dtor

/-- Whether the event is a construction (any constructor path). -/
def Event.isCtor : Event → Bool
  | .dtor => false
  | _ => true

/-- The change an event makes to `s_count`: `+1` for every constructor,
`-1` for the destructor. -/
def countDelta (e : Event) : ℤ := if e.isCtor then 1 else -1

/-- The value of `s_count` after running a sequence of lifecycle events,
starting from `start` (the program starts it at `0`). -/
def runCount (start : ℤ) : List Event → ℤ
  | [] => start
  | e :: es => runCount (start + countDelta e) es

/-- Number of constructions in an event sequence. -/
def numCtors (es : List Event) : ℕ := (es.filter Event.isCtor).length

/-- Number of destructions in an event sequence. -/
def numDtors (es : List Event) : ℕ := (es.filter (fun e => ! e.isCtor)).length

/-- Helper: the counter after any event sequence is the start value plus
constructions minus destructions. -/
lemma runCount_eq (es : List Event) :
    ∀ start : ℤ, runCount start es =
      start + (numCtors es : ℤ) - (numDtors es : ℤ) := by
  induction es with
  | nil => intro start; simp [runCount, numCtors, numDtors]
  | cons e es ih =>
      intro start
      rw [runCount, ih]
      cases he : e.isCtor <;>
        simp [numCtors, numDtors, List.filter_cons, he, countDelta] <;>
        omega

/-- Claim C6: over any event sequence in which every initial segment has
destroyed no more instances than it constructed (`M ≤ N` holds along the
way, as it does for real object lifetimes), the final counter equals
`N − M`, and the counter is never negative at any point of the run. -/
theorem counter_matches_live (es : List Event)
    (h : ∀ n, numDtors (es.take n) ≤ numCtors (es.take n)) :
    runCount 0 es = (numCtors es : ℤ) - (numDtors es : ℤ) ∧
    ∀ n, 0 ≤ runCount 0 (es.take n) := by
  constructor
  · have := runCount_eq es 0
    omega
  · intro n
    have hr := runCount_eq (es.take n) 0
    have hn := h n
    omega

/-- Witness for C6 on the spec's concrete scenario 6: create three accounts,
destroy one; the counter reads `3 - 1 = 2` and never dips below zero. -/
theorem counter_matches_live_witness :
    runCount 0 [Event.ctorDefault, Event.ctorValues 10 20,
      Event.ctorDefault, Event.dtor] =
      ((numCtors [Event.ctorDefault, Event.ctorValues 10 20,
        Event.ctorDefault, Event.dtor] : ℤ) -
       (numDtors [Event.ctorDefault, Event.ctorValues 10 20,
        Event.ctorDefault, Event.dtor] : ℤ)) ∧
    ∀ n, 0 ≤ runCount 0 ([Event.ctorDefault, Event.ctorValues 10 20,
      Event.ctorDefault, Event.dtor].take n) :=
  counter_matches_live _ (by
    intro n
    match n with
    | 0 => decide
    | 1 => decide
    | 2 => decide
    | 3 => decide
    | (k + 4) =>
        rw [List.take_of_length_le (by simp)]
        decide)

end Bank
